import Mathlib

/-!
Verification of the geocoder core (derilinx_geocoder_api.py): the address
tokenizer (address_handler) and the progressive matcher
(extract_gps_coordinates), embedded shallowly over lists of records.

Python-level behaviour that the embedding reproduces faithfully:

- address_handler step 2 removes empty segments with a for-loop that calls
  list.remove while iterating.  CPython iterates by index: after the element
  at index i is yielded and possibly removed, the next element read is index
  i+1 of the modified list, so some empty segments can survive removal.
  list.remove deletes the first occurrence of the value, which List.erase
  mirrors exactly.
- address_handler step 3 evaluates word[0], which raises IndexError on an
  empty string; the embedding returns Except.error there.
- Python str.split() with no argument splits on whitespace runs and drops
  empty pieces; str.replace removes every occurrence.
- extract_gps_coordinates starts from pandas.DataFrame() (a frame with no
  columns), overwrites it with filter results of the townlands or counties
  table, and pops the head of the caller's address_list every iteration.
  The trailing column selection [['County', 'English_Name', 'Y', 'X']]
  raises KeyError when none of the four labels exist, i.e. exactly when the
  frame is still the initial pandas.DataFrame(); on a counties filter result
  the era-appropriate pandas reindexes (English_Name absent/NaN), and on a
  townlands filter result all four columns exist.  The embedding keeps the
  provenance of the frame in the DF type and returns Except.error for the
  KeyError case.
-/

/-- Row of the townlands table, restricted to the columns the program reads
or outputs: County, English_Name, Y, X (coordinates kept as strings). -/
structure PlaceRecord where
  county : String
  english_name : String
  y : String
  x : String
deriving Repr, DecidableEq

/-- Row of the counties table: columns County, Y, X. -/
structure CountyRecord where
  county : String
  y : String
  x : String
deriving Repr, DecidableEq

/-- The two module-level reference tables (TOWNLANDS_DF and COUNTIES_DF),
loaded once at startup and shared by every lookup. -/
structure Tables where
  townlands : List PlaceRecord
  counties : List CountyRecord
deriving Repr, DecidableEq

/-- The value of the _matched_df variable, remembering which table the frame
came from: pandas.DataFrame() (no columns), a filter of the townlands table,
or a filter of the counties table. -/
inductive DF where
  | initDF : DF
  | townlands (rs : List PlaceRecord) : DF
  | counties (rs : List CountyRecord) : DF
deriving Repr, DecidableEq

/-- The pandas DataFrame.empty test: the fresh DataFrame() is empty, a filter
result is empty when it has no rows. -/
def DF.isEmpty : DF → Bool
  | .initDF => true
  | .townlands rs => rs.isEmpty
  | .counties rs => rs.isEmpty

/-- Embedding of TOWNLANDS_DF.loc[(TOWNLANDS_DF['County'] == county) &
(TOWNLANDS_DF['English_Name'] == name)]. -/
def placesFilter (townlands : List PlaceRecord) (county name : String) :
    List PlaceRecord :=
  townlands.filter (fun r => r.county == county && r.english_name == name)

/-- Embedding of COUNTIES_DF.loc[COUNTIES_DF['County'] == county]. -/
def countiesFilter (counties : List CountyRecord) (county : String) :
    List CountyRecord :=
  counties.filter (fun r => r.county == county)

/-- Step 2 of address_handler:

  for word in _address_separated_list:
      if word == '':
          _address_separated_list.remove(word)

CPython list iteration is by index; after yielding index i the iterator moves
to index i+1 of the (possibly shortened) list, and list.remove('') deletes
the first occurrence of ''. -/
def removeEmptiesGo : Nat → List String → Nat → List String
  | 0, l, _ => l
  | fuel + 1, l, i =>
    if h : i < l.length then
      if l.get ⟨i, h⟩ = "" then
        removeEmptiesGo fuel (l.erase "") (i + 1)
      else
        removeEmptiesGo fuel l (i + 1)
    else
      l

/-- The loop over the comma segments, started at index 0.  The fuel argument
of removeEmptiesGo only makes the recursion structural: the list never grows
and the index increases by one per step, so length - index bounds the number
of iterations by the initial length, and when the fuel runs out the index
test fails as well, so the fuel branch and the index-exhaustion branch
return the same list. -/
def removeEmptiesLoop (l : List String) : List String :=
  removeEmptiesGo l.length l 0

/-- Splitter over code points mirroring Python str.split(sep): cut the
character list at every character satisfying p, keeping empty pieces. -/
def splitPredAux (p : Char → Bool) : List Char → List Char → List String
  | [], acc => [String.mk acc.reverse]
  | c :: cs, acc =>
    if p c then
      String.mk acc.reverse :: splitPredAux p cs []
    else
      splitPredAux p cs (c :: acc)

/-- Python str.upper() over the code points of the string. -/
def pyUpper (w : String) : String :=
  String.mk (w.data.map Char.toUpper)

/-- Step 3 of address_handler for one list element:

  if word[0] == ' ':
      lst[index] = lst[index][1:]
  lst[index] = lst[index].replace('.', '')

word[0] raises IndexError when the word is the empty string; word[1:] drops
the first code point; replace('.', '') deletes every period. -/
def clean_word (w : String) : Except Unit String :=
  if w = "" then
    .error ()
  else
    .ok (String.mk
      ((if w.data.head? = some ' ' then w.data.tail else w.data).filter
        (fun c => c ≠ '.')))

/-- Step 4 of address_handler for one cleaned segment: a segment containing a
space character is split by str.split() with no argument (cut at every
whitespace character, empty pieces dropped) into upper-cased tokens,
otherwise the whole segment is one upper-cased token. -/
def split_segment (w : String) : List String :=
  if w.data.contains ' ' then
    ((splitPredAux Char.isWhitespace w.data []).filter (fun s => s ≠ "")).map pyUpper
  else
    [pyUpper w]

/-- Embedding of address_handler: split on commas, remove empty elements
(with the iterate-while-removing loop), strip one leading space and all
periods per segment (IndexError on an empty surviving segment), then split
compound segments and upper-case. -/
def address_handler (full_address : String) : Except Unit (List String) := do
  let l0 := splitPredAux (fun c => c = ',') full_address.data []
  let l1 := removeEmptiesLoop l0
  let l2 ← l1.mapM clean_word
  return l2.flatMap split_segment

/-- The while loop of extract_gps_coordinates:

  while _matched_df.empty and len(address_list) >= 1:
      _matched_df = TOWNLANDS_DF.loc[(County == address_list[-1]) &
                                     (English_Name == address_list[0])]
      if len(address_list) == 1:
          _matched_df = COUNTIES_DF.loc[County == address_list[0]]
      address_list.pop(0)

Returns the final _matched_df together with the final state of the (mutated)
address_list. -/
def matchLoop (g : Tables) : DF → List String → DF × List String
  | df, [] => (df, [])
  | df, t :: rest =>
    if df.isEmpty then
      let df1 := DF.townlands (placesFilter g.townlands ((t :: rest).getLastD "") t)
      let df2 := if rest.isEmpty then DF.counties (countiesFilter g.counties t) else df1
      matchLoop g df2 rest
    else
      (df, t :: rest)

/-- The records selected by the trailing
_matched_df[['County', 'English_Name', 'Y', 'X']]: a place-level or a
county-level result set.  For a county-level frame the English_Name column is
absent/NaN, which the CountyRecord rows represent. -/
inductive MatchResult where
  | places (rs : List PlaceRecord) : MatchResult
  | counties (rs : List CountyRecord) : MatchResult
deriving Repr, DecidableEq

/-- Row-emptiness of a selected result set. -/
def MatchResult.isEmpty : MatchResult → Bool
  | .places rs => rs.isEmpty
  | .counties rs => rs.isEmpty

/-- The final column selection _matched_df[['County', 'English_Name', 'Y',
'X']].  On the initial pandas.DataFrame() none of the four labels is a
column, which raises KeyError; on a filter of either table the selection
succeeds (English_Name reindexed as absent for the counties table). -/
def selectCols : DF → Except Unit MatchResult
  | .initDF => .error ()
  | .townlands rs => .ok (.places rs)
  | .counties rs => .ok (.counties rs)

/-- Embedding of extract_gps_coordinates.  The first component is the
returned result (Except.error for the KeyError raised when the loop never
ran); the second component is the state of the caller's address_list after
the call, since the loop pops from the argument list itself. -/
def extract_gps_coordinates (g : Tables) (address_list : List String) :
    Except Unit MatchResult × List String :=
  (selectCols (matchLoop g DF.initDF address_list).1,
    (matchLoop g DF.initDF address_list).2)

/-- The full pipeline of the address endpoint: tokenize, then match; any
exception raised by either stage propagates. -/
def geocode (g : Tables) (full_address : String) : Except Unit MatchResult := do
  let tokens ← address_handler full_address
  (extract_gps_coordinates g tokens).1

/-- Global-state account of extract_gps_coordinates: the function reads the
module-level tables TOWNLANDS_DF and COUNTIES_DF and assigns to neither, so
as a state transformer on the shared tables it returns them unchanged. -/
def extract_gps_coordinates_g (g : Tables) (address_list : List String) :
    (Except Unit MatchResult × List String) × Tables :=
  (extract_gps_coordinates g address_list, g)

/-- Declarative statement of the progressive search used by the claims: scan
the candidate local tokens from the front and return the first non-empty
places filter for the fixed county anchor, if any. -/
def firstPlaceHit (townlands : List PlaceRecord) (anchor : String) :
    List String → Option (List PlaceRecord)
  | [] => none
  | t :: rest =>
    if placesFilter townlands anchor t = [] then
      firstPlaceHit townlands anchor rest
    else
      some (placesFilter townlands anchor t)

theorem firstPlaceHit_some_ne_nil (townlands : List PlaceRecord) (anchor : String) :
    ∀ (l : List String) (rs : List PlaceRecord),
      firstPlaceHit townlands anchor l = some rs → rs ≠ []
  | [], rs, h => by simp [firstPlaceHit] at h
  | t :: rest, rs, h => by
    by_cases hfil : placesFilter townlands anchor t = []
    · exact firstPlaceHit_some_ne_nil townlands anchor rest rs
        (by simpa [firstPlaceHit, hfil] using h)
    · have : rs = placesFilter townlands anchor t := by
        simpa [firstPlaceHit, hfil] using h.symm
      simpa [this] using hfil

theorem matchLoop_stop (g : Tables) (df : DF) (hdf : df.isEmpty = false) :
    ∀ l : List String, matchLoop g df l = (df, l)
  | [] => rfl
  | _ :: _ => by simp [matchLoop, hdf]

theorem matchLoop_progressive (g : Tables) (anchor : String) :
    ∀ (front : List String) (df : DF), df.isEmpty = true →
      (matchLoop g df (front ++ [anchor])).1 =
        match firstPlaceHit g.townlands anchor front with
        | some rs => DF.townlands rs
        | none => DF.counties (countiesFilter g.counties anchor)
  | [], df, hdf => by
    simp [matchLoop, hdf, firstPlaceHit]
  | t :: ft, df, hdf => by
    have hlast : (t :: (ft ++ [anchor])).getLast?.getD "" = anchor := by
      have h0 := List.getLastD_concat "" anchor (t :: ft)
      simpa [List.getLastD_eq_getLast?, List.cons_append] using h0
    have hne : (ft ++ [anchor]).isEmpty = false := by
      cases ft <;> simp
    by_cases hfil : placesFilter g.townlands anchor t = []
    · have ih := matchLoop_progressive g anchor ft
        (DF.townlands (placesFilter g.townlands anchor t)) (by simp [DF.isEmpty, hfil])
      rw [hfil] at ih
      simp only [List.cons_append]
      simp [matchLoop, hdf, hlast, hne, firstPlaceHit, hfil, ih]
    · have hstop := matchLoop_stop g (DF.townlands (placesFilter g.townlands anchor t))
        (by simpa [DF.isEmpty, List.isEmpty_iff] using hfil) (ft ++ [anchor])
      simp only [List.cons_append]
      simp [matchLoop, hdf, hlast, hne, firstPlaceHit, hfil, hstop]

theorem matchLoop_snd_drop (g : Tables) :
    ∀ (l : List String) (df : DF),
      ∃ k, (matchLoop g df l).2 = l.drop k ∧
        (df.isEmpty = true → l ≠ [] → 1 ≤ k)
  | [], df => ⟨0, rfl, fun _ h => absurd rfl h⟩
  | t :: rest, df => by
    by_cases hdf : df.isEmpty = true
    · obtain ⟨k, hk, _⟩ := matchLoop_snd_drop g rest
        (if rest.isEmpty then DF.counties (countiesFilter g.counties t)
         else DF.townlands (placesFilter g.townlands ((t :: rest).getLastD "") t))
      refine ⟨k + 1, ?_, fun _ _ => Nat.le_add_left 1 k⟩
      simpa [matchLoop, hdf] using hk
    · refine ⟨0, ?_, fun h _ => absurd h hdf⟩
      simp [matchLoop, hdf]

theorem matchLoop_fst_cases (g : Tables) :
    ∀ (l : List String) (df : DF),
      (matchLoop g df l).1 = df ∨
      (∃ c t, (matchLoop g df l).1 = DF.townlands (placesFilter g.townlands c t)) ∨
      (∃ c, (matchLoop g df l).1 = DF.counties (countiesFilter g.counties c))
  | [], df => Or.inl rfl
  | t :: rest, df => by
    by_cases hdf : df.isEmpty = true
    · have ih := matchLoop_fst_cases g rest
        (if rest.isEmpty then DF.counties (countiesFilter g.counties t)
         else DF.townlands (placesFilter g.townlands ((t :: rest).getLastD "") t))
      have heq : matchLoop g df (t :: rest) =
          matchLoop g
            (if rest.isEmpty then DF.counties (countiesFilter g.counties t)
             else DF.townlands (placesFilter g.townlands ((t :: rest).getLastD "") t))
            rest := by
        simp [matchLoop, hdf]
      rw [heq]
      rcases ih with h | h | h
      · rw [h]
        by_cases hr : rest.isEmpty
        · exact Or.inr (Or.inr ⟨t, by simp [hr]⟩)
        · exact Or.inr (Or.inl ⟨(t :: rest).getLastD "", t, by simp [hr]⟩)
      · exact Or.inr (Or.inl h)
      · exact Or.inr (Or.inr h)
    · exact Or.inl (by simp [matchLoop, hdf])

theorem dropLast_append_getLastD (ts : List String) (h : ts ≠ []) :
    ts.dropLast ++ [ts.getLastD ""] = ts := by
  have h2 := List.dropLast_append_getLast h
  have h3 : ts.getLastD "" = ts.getLast h := by
    conv_lhs => rw [← h2]
    exact List.getLastD_concat _ _ _
  rw [h3, h2]

/-- C1: for a token sequence of length at least 2, extract_gps_coordinates
returns the PlaceRecords whose County equals the last token and whose
English_Name equals the i-th token, for the smallest i among the positions
before the last at which that record set is non-empty; if it is empty at
every such position, it returns the CountyRecords whose County equals the
last token (possibly empty).  The county anchor is the same last token
throughout the search. -/
theorem match_progressive_search (g : Tables) (ts : List String)
    (h : 2 ≤ ts.length) :
    (extract_gps_coordinates g ts).1 =
      match firstPlaceHit g.townlands (ts.getLastD "") ts.dropLast with
      | some rs => Except.ok (MatchResult.places rs)
      | none =>
          Except.ok (MatchResult.counties
            (countiesFilter g.counties (ts.getLastD ""))) := by
  have hne : ts ≠ [] := by
    intro he
    rw [he] at h
    simp at h
  have hsplit := dropLast_append_getLastD ts hne
  have hml := matchLoop_progressive g (ts.getLastD "") ts.dropLast DF.initDF rfl
  rw [hsplit] at hml
  have hfst : (extract_gps_coordinates g ts).1 =
      selectCols (matchLoop g DF.initDF ts).1 := rfl
  rw [hfst, hml]
  cases firstPlaceHit g.townlands (ts.getLastD "") ts.dropLast <;> simp [selectCols]

/-- Witness for C1 at a concrete two-token sequence and a one-row places
table. -/
theorem match_progressive_search_witness :
    (extract_gps_coordinates ⟨[⟨"B", "A", "1", "2"⟩], []⟩ ["A", "B"]).1 =
      match firstPlaceHit [⟨"B", "A", "1", "2"⟩]
          ((["A", "B"] : List String).getLastD "")
          (["A", "B"] : List String).dropLast with
      | some rs => Except.ok (MatchResult.places rs)
      | none =>
          Except.ok (MatchResult.counties
            (countiesFilter ([] : List CountyRecord)
              ((["A", "B"] : List String).getLastD ""))) :=
  match_progressive_search ⟨[⟨"B", "A", "1", "2"⟩], []⟩ ["A", "B"] (by decide)

/-- C2 counterexample: extract_gps_coordinates pops from the caller's own
address_list, so after a call on the one-token sequence consisting of the
token A (with empty tables) the caller observes the empty list, not the
original sequence — the input token sequence is not unchanged. -/
theorem match_mutates_caller_list :
    ¬ (extract_gps_coordinates ⟨[], []⟩ ["A"]).2 = ["A"] := by decide

/-- C2 amended: the matcher consumes the caller's token sequence itself, not
an internal working copy: after a call on a non-empty token sequence the
caller observes the suffix obtained by dropping one token per loop iteration
(at least one), a sequence strictly shorter than the original. -/
theorem match_consumes_caller_list (g : Tables) (ts : List String)
    (h : ts ≠ []) :
    ∃ k, 1 ≤ k ∧ (extract_gps_coordinates g ts).2 = ts.drop k ∧
      (extract_gps_coordinates g ts).2.length < ts.length := by
  obtain ⟨k, hk, himp⟩ := matchLoop_snd_drop g ts DF.initDF
  have hk1 : 1 ≤ k := himp rfl h
  have hdropeq : (extract_gps_coordinates g ts).2 = ts.drop k := hk
  refine ⟨k, hk1, hdropeq, ?_⟩
  rw [hdropeq, List.length_drop]
  have hpos : 0 < ts.length := List.length_pos.mpr h
  omega

/-- Witness for the amended C2 at a concrete one-token sequence. -/
theorem match_consumes_caller_list_witness :
    ∃ k, 1 ≤ k ∧
      (extract_gps_coordinates ⟨[], []⟩ ["A"]).2 = (["A"] : List String).drop k ∧
      (extract_gps_coordinates ⟨[], []⟩ ["A"]).2.length <
        (["A"] : List String).length :=
  match_consumes_caller_list ⟨[], []⟩ ["A"] (by decide)

/-- C3: on a single-token sequence whose token is the County field of at
least one CountyRecord, extract_gps_coordinates returns exactly the
CountyRecords with that County and no PlaceRecords; the townlands lookup
performed first is overwritten by the counties lookup, so this holds for
every places table, including one containing a record whose County and
English_Name both equal the token. -/
theorem match_single_token_counties (g : Tables) (t : String)
    (h : ∃ c ∈ g.counties, c.county = t) :
    (extract_gps_coordinates g [t]).1 =
      Except.ok (MatchResult.counties (countiesFilter g.counties t)) ∧
    countiesFilter g.counties t ≠ [] := by
  constructor
  · simp [extract_gps_coordinates, matchLoop, DF.isEmpty, selectCols]
  · obtain ⟨c, hc, hct⟩ := h
    have hmem : c ∈ countiesFilter g.counties t := by
      unfold countiesFilter
      exact List.mem_filter.mpr ⟨hc, by simp [hct]⟩
    exact List.ne_nil_of_mem hmem

/-- Witness for C3 with a places row whose County and English_Name both
equal the token, showing the counties rows still win. -/
theorem match_single_token_counties_witness :
    (extract_gps_coordinates
        ⟨[⟨"CARLOW", "CARLOW", "3", "4"⟩], [⟨"CARLOW", "1", "2"⟩]⟩
        ["CARLOW"]).1 =
      Except.ok (MatchResult.counties
        (countiesFilter [⟨"CARLOW", "1", "2"⟩] "CARLOW")) ∧
    countiesFilter [⟨"CARLOW", "1", "2"⟩] "CARLOW" ≠ [] :=
  match_single_token_counties
    ⟨[⟨"CARLOW", "CARLOW", "3", "4"⟩], [⟨"CARLOW", "1", "2"⟩]⟩ "CARLOW"
    (by decide)

/-- C4 (code bug): on the empty token sequence the while loop never runs,
_matched_df is still the column-less pandas.DataFrame(), and the final
selection of columns County, English_Name, Y, X raises KeyError for any
tables — not the empty, error-free result the claim states. -/
theorem match_empty_tokens_raises (g : Tables) :
    (extract_gps_coordinates g []).1 = Except.error () := rfl

/-- C5 (code bug): an address consisting only of delimiters does not degrade
gracefully.  For the single-comma address the comma split gives two empty
segments, the iterate-while-removing loop removes only one of them, and the
leading-space test word[0] then raises IndexError on the surviving empty
segment, so the pipeline crashes; for the single-period address tokenization
returns the one-element sequence containing the empty token, not the empty
sequence. -/
theorem delimiter_only_address (g : Tables) :
    address_handler "," = Except.error () ∧
    address_handler "." = Except.ok [""] ∧
    geocode g "," = Except.error () := by
  refine ⟨rfl, rfl, ?_⟩
  show (address_handler "," >>= fun tokens => (extract_gps_coordinates g tokens).1) =
    Except.error ()
  rfl

/-- C6 (code bug): one empty segment between two non-empty segments is
discarded, but with three consecutive commas the remove-while-iterating loop
skips one of the two empty segments, which then reaches word[0] and raises
IndexError — empty-segment discarding does not hold for every number of
consecutive commas and tokenize does not always return normally. -/
theorem consecutive_commas :
    address_handler "Foo,,Bar" = Except.ok ["FOO", "BAR"] ∧
    address_handler "Foo,,,Bar" = Except.error () :=
  ⟨rfl, rfl⟩

/-- C7: extract_gps_coordinates reads the shared module-level tables and
never assigns to them, so the call leaves them unchanged and a second call
supplied with an equal token sequence returns exactly the records of the
first call. -/
theorem match_idempotent_shared_tables (g : Tables) (ts : List String) :
    ((extract_gps_coordinates_g (extract_gps_coordinates_g g ts).2 ts).1).1 =
      ((extract_gps_coordinates_g g ts).1).1 ∧
    (extract_gps_coordinates_g g ts).2 = g :=
  ⟨rfl, rfl⟩

/-- C8: the example address splits into three comma segments, the two
leading spaces are stripped, the compound segment Co Carlow is split on its
internal space, and every token is upper-cased, in reading order. -/
theorem tokenize_example_address :
    address_handler "Johnstown, Bennekerry, Co Carlow" =
      Except.ok ["JOHNSTOWN", "BENNEKERRY", "CO", "CARLOW"] := rfl

/-- C9 counterexample: on the empty token sequence the call does not reach
either claimed exit state — both exit states are returned results, but the
final column selection raises instead of returning. -/
theorem match_exit_states_counterexample :
    ¬ ∃ r, (extract_gps_coordinates ⟨[], []⟩ []).1 = Except.ok r :=
  fun ⟨_, hr⟩ => Except.noConfusion hr

/-- C9 amended: extract_gps_coordinates terminates on every finite token
sequence, and on every non-empty token sequence the loop (which removes one
token per iteration) reaches exactly one of two exit states: a non-empty
match, or an empty result coming from the county-only lookup on the final
remaining token; on the empty token sequence the loop terminates immediately
but the call raises an error instead of reaching an exit state. -/
theorem match_exit_states_dichotomy (g : Tables) (ts : List String)
    (h : ts ≠ []) :
    ∃ r, (extract_gps_coordinates g ts).1 = Except.ok r ∧
      (r.isEmpty = true →
        r = MatchResult.counties (countiesFilter g.counties (ts.getLastD "")) ∧
        countiesFilter g.counties (ts.getLastD "") = []) := by
  have hsplit := dropLast_append_getLastD ts h
  have hml := matchLoop_progressive g (ts.getLastD "") ts.dropLast DF.initDF rfl
  rw [hsplit] at hml
  have hfst : (extract_gps_coordinates g ts).1 =
      selectCols (matchLoop g DF.initDF ts).1 := rfl
  cases hfh : firstPlaceHit g.townlands (ts.getLastD "") ts.dropLast with
  | some rs =>
    refine ⟨MatchResult.places rs, ?_, ?_⟩
    · rw [hfst, hml, hfh]
      rfl
    · intro hemp
      have hrs := firstPlaceHit_some_ne_nil g.townlands (ts.getLastD "")
        ts.dropLast rs hfh
      exact absurd (by simpa [MatchResult.isEmpty, List.isEmpty_iff] using hemp) hrs
  | none =>
    refine ⟨MatchResult.counties (countiesFilter g.counties (ts.getLastD "")),
      ?_, ?_⟩
    · rw [hfst, hml, hfh]
      rfl
    · intro hemp
      exact ⟨rfl, by simpa [MatchResult.isEmpty, List.isEmpty_iff] using hemp⟩

/-- Witness for the amended C9 at a concrete one-token sequence with empty
tables: the empty exit state is the county-only lookup on the token. -/
theorem match_exit_states_dichotomy_witness :
    ∃ r, (extract_gps_coordinates ⟨[], []⟩ ["A"]).1 = Except.ok r ∧
      (r.isEmpty = true →
        r = MatchResult.counties
          (countiesFilter ([] : List CountyRecord)
            ((["A"] : List String).getLastD "")) ∧
        countiesFilter ([] : List CountyRecord)
          ((["A"] : List String).getLastD "") = []) :=
  match_exit_states_dichotomy ⟨[], []⟩ ["A"] (by decide)

/-- C10: every successful result of extract_gps_coordinates is a set of rows
of exactly one table: a places result whose rows all belong to the townlands
table, or a counties result whose rows all belong to the counties table;
no result mixes rows of the two tables. -/
theorem match_result_single_table (g : Tables) (ts : List String)
    (r : MatchResult) (h : (extract_gps_coordinates g ts).1 = Except.ok r) :
    (∃ rs, r = MatchResult.places rs ∧ ∀ p ∈ rs, p ∈ g.townlands) ∨
    (∃ rs, r = MatchResult.counties rs ∧ ∀ c ∈ rs, c ∈ g.counties) := by
  have hr : selectCols (matchLoop g DF.initDF ts).1 = Except.ok r := h
  rcases matchLoop_fst_cases g ts DF.initDF with h0 | ⟨c, t, hdf⟩ | ⟨c, hdf⟩
  · rw [h0] at hr
    exact absurd hr (by simp [selectCols])
  · rw [hdf] at hr
    have hre : MatchResult.places (placesFilter g.townlands c t) = r :=
      Except.ok.inj hr
    refine Or.inl ⟨placesFilter g.townlands c t, hre.symm, ?_⟩
    intro p hp
    unfold placesFilter at hp
    exact (List.mem_filter.mp hp).1
  · rw [hdf] at hr
    have hre : MatchResult.counties (countiesFilter g.counties c) = r :=
      Except.ok.inj hr
    refine Or.inr ⟨countiesFilter g.counties c, hre.symm, ?_⟩
    intro x hx
    unfold countiesFilter at hx
    exact (List.mem_filter.mp hx).1

/-- Witness for C10 at a concrete call whose result is an empty county-level
set. -/
theorem match_result_single_table_witness :
    (∃ rs, MatchResult.counties ([] : List CountyRecord) =
        MatchResult.places rs ∧ ∀ p ∈ rs, p ∈ ([] : List PlaceRecord)) ∨
    (∃ rs, MatchResult.counties ([] : List CountyRecord) =
        MatchResult.counties rs ∧ ∀ c ∈ rs, c ∈ ([] : List CountyRecord)) :=
  match_result_single_table ⟨[], []⟩ ["A"] (MatchResult.counties []) rfl
